import Mathlib

/-!
A shallow embedding of the arabella-api double-entry accounting core:
the transaction model and its validation, the posting engine
(journal-entry generation, balance validation, real-account balance
updates), the reversal engine, the entry-derived balance updater,
the dashboard runway computation and the monthly statistics query.

Monetary values are shopspring decimal.Decimal at scale 4 in the source;
addition, negation, subtraction and comparison on them are exact, so they
are modelled as integers (in units of 10^-4).  Timestamps are modelled as
integer seconds; the zero time is 0.  The database is modelled as lists of
rows; a GORM First-by-primary-key lookup is a find? on the id, and a Save
is a map replacing the row with that id.
-/

namespace Arabella

/-- Exact scale-4 decimal amounts, represented as integers. -/
abbrev Money := Int

/-- models.Account (src/unnamed/part_004).  CurrencyId is a nullable
pointer in the source; Balance is decimal(19,4). -/
structure Account where
  id : Nat
  userId : Nat
  name : String
  accountType : String
  currencyId : Option Nat
  balance : Money
  isActive : Bool
deriving Repr, DecidableEq

/-- models.Transaction (src/unnamed/part_003).  The model has no
reversed flag; the only mutable status flag is IsReconciled. -/
structure Transaction where
  id : Nat
  userId : Nat
  type : String
  description : String
  amount : Money
  amountInUSD : Money
  exchangeRate : Money
  accountFromId : Nat
  accountToId : Option Nat
  categoryId : Option Nat
  transactionDate : Int
  notes : String
  isReconciled : Bool
deriving Repr, DecidableEq

/-- models.JournalEntry (src/internal/app/models/journalentry.go). -/
structure JournalEntry where
  userId : Nat
  transactionId : Nat
  accountId : Nat
  debitOrCredit : String
  amount : Money
  entryDate : Int
  description : String
deriving Repr, DecidableEq

/-- Transaction.Validate (src/unnamed/part_003 lines 38-86): the posting
pre-validation, checked in source order.  amount.IsZero()||IsNegative()
is amount = 0 or amount < 0; time.IsZero() is date = 0; the exchange-rate
check rejects only a non-zero negative rate. -/
def Transaction.Validate (t : Transaction) : Except String Unit :=
  if t.amount = 0 ∨ t.amount < 0 then
    Except.error ("amount must be positive, got: " ++ toString t.amount)
  else if t.type = "" then
    Except.error ("transaction type is required")
  else if t.type = "TRANSFER" ∧ t.accountToId = none then
    Except.error ("account_to_id is required for TRANSFER transactions")
  else if t.type = "TRANSFER" ∧ t.categoryId ≠ none then
    Except.error ("category_id should not be set for TRANSFER transactions")
  else if (t.type = "INCOME" ∨ t.type = "EXPENSE") ∧ t.categoryId = none then
    Except.error ("category_id is required for " ++ t.type ++ " transactions")
  else if (t.type = "INCOME" ∨ t.type = "EXPENSE") ∧ t.accountToId ≠ none then
    Except.error ("account_to_id should not be set for " ++ t.type ++ " transactions")
  else if t.description = "" then
    Except.error ("description is required")
  else if t.exchangeRate ≠ 0 ∧ t.exchangeRate < 0 then
    Except.error ("exchange_rate must be positive, got: " ++ toString t.exchangeRate)
  else if t.transactionDate = 0 then
    Except.error ("transaction_date is required")
  else
    Except.ok ()

/-- generateJournalEntries (accounting_engine_service.go lines 91-193 and
src/unnamed/part_007 lines 168-270, identical in both): two entries per
supported type, the category id used as a virtual account id for
INCOME/EXPENSE. -/
def generateJournalEntries (t : Transaction) : Except String (List JournalEntry) :=
  if t.type = "EXPENSE" then
    match t.categoryId with
    | none => Except.error ("category_id is required for EXPENSE transactions")
    | some cid =>
      Except.ok
        [{ userId := t.userId, transactionId := t.id, accountId := cid,
           debitOrCredit := "DEBIT", amount := t.amount,
           entryDate := t.transactionDate,
           description := "Expense: " ++ t.description },
         { userId := t.userId, transactionId := t.id, accountId := t.accountFromId,
           debitOrCredit := "CREDIT", amount := t.amount,
           entryDate := t.transactionDate,
           description := "Payment: " ++ t.description }]
  else if t.type = "INCOME" then
    match t.categoryId with
    | none => Except.error ("category_id is required for INCOME transactions")
    | some cid =>
      Except.ok
        [{ userId := t.userId, transactionId := t.id, accountId := t.accountFromId,
           debitOrCredit := "DEBIT", amount := t.amount,
           entryDate := t.transactionDate,
           description := "Income: " ++ t.description },
         { userId := t.userId, transactionId := t.id, accountId := cid,
           debitOrCredit := "CREDIT", amount := t.amount,
           entryDate := t.transactionDate,
           description := "Revenue: " ++ t.description }]
  else if t.type = "TRANSFER" then
    match t.accountToId with
    | none => Except.error ("account_to_id is required for TRANSFER transactions")
    | some toId =>
      Except.ok
        [{ userId := t.userId, transactionId := t.id, accountId := toId,
           debitOrCredit := "DEBIT", amount := t.amount,
           entryDate := t.transactionDate,
           description := "Transfer in: " ++ t.description },
         { userId := t.userId, transactionId := t.id, accountId := t.accountFromId,
           debitOrCredit := "CREDIT", amount := t.amount,
           entryDate := t.transactionDate,
           description := "Transfer out: " ++ t.description }]
  else
    Except.error ("unsupported transaction type: " ++ t.type)

/-- The running debit total of validateBalance: the single loop adds an
entry amount to the debit total exactly when its side is "DEBIT". -/
def totalDebits (entries : List JournalEntry) : Money :=
  entries.foldl (fun acc e => if e.debitOrCredit = "DEBIT" then acc + e.amount else acc) 0

/-- The running credit total of validateBalance: amounts with side
"CREDIT".  Any other side contributes to neither total, mirroring the
if / else-if in the source. -/
def totalCredits (entries : List JournalEntry) : Money :=
  entries.foldl (fun acc e => if e.debitOrCredit = "CREDIT" then acc + e.amount else acc) 0

/-- validateBalance (accounting_engine_service.go lines 197-219). -/
def validateBalance (entries : List JournalEntry) : Except String Unit :=
  if totalDebits entries = totalCredits entries then
    Except.ok ()
  else
    Except.error ("debits and credits must be equal")

/-- GORM First-by-id read of an account balance: the first row with the
given primary key, if any. -/
def getBalance (accounts : List Account) (aid : Nat) : Option Money :=
  (accounts.find? (fun a => a.id = aid)).map Account.balance

/-- Whether an account row with the given id exists. -/
def accountExists (accounts : List Account) (aid : Nat) : Bool :=
  accounts.any (fun a => a.id = aid)

/-- Account.UpdateBalance followed by Save: add the change to the balance
of the row with the given primary key (primary keys are unique in the
store, so mapping over all rows with that id is the single-row update). -/
def applyDelta (accounts : List Account) (aid : Nat) (change : Money) : List Account :=
  accounts.map (fun a => if a.id = aid then { a with balance := a.balance + change } else a)

/-- applyBalanceChange (src/unnamed/part_007 lines 352-362): First the
account by id — a missing row is an error — then UpdateBalance and Save. -/
def applyBalanceChange (accounts : List Account) (aid : Nat) (change : Money) :
    Except String (List Account) :=
  if accountExists accounts aid then
    Except.ok (applyDelta accounts aid change)
  else
    Except.error ("account " ++ toString aid ++ " not found")

/-- updateRealAccountBalances (src/unnamed/part_007 lines 306-323):
balance deltas derived from the transaction itself — EXPENSE: from -=
amount; INCOME: from += amount; TRANSFER: from -= amount then to +=
amount. -/
def updateRealAccountBalances (t : Transaction) (accounts : List Account) :
    Except String (List Account) :=
  if t.type = "EXPENSE" then
    applyBalanceChange accounts t.accountFromId (-t.amount)
  else if t.type = "INCOME" then
    applyBalanceChange accounts t.accountFromId t.amount
  else if t.type = "TRANSFER" then
    match t.accountToId with
    | none => Except.error ("account_to_id is required for TRANSFER balance update")
    | some toId =>
      match applyBalanceChange accounts t.accountFromId (-t.amount) with
      | Except.error e => Except.error e
      | Except.ok accounts1 => applyBalanceChange accounts1 toId t.amount
  else
    Except.error ("unsupported transaction type for balance update: " ++ t.type)

/-- reverseRealAccountBalances (src/unnamed/part_007 lines 331-348): the
inverse deltas — EXPENSE: from += amount; INCOME: from -= amount;
TRANSFER: from += amount then to -= amount. -/
def reverseRealAccountBalances (t : Transaction) (accounts : List Account) :
    Except String (List Account) :=
  if t.type = "EXPENSE" then
    applyBalanceChange accounts t.accountFromId t.amount
  else if t.type = "INCOME" then
    applyBalanceChange accounts t.accountFromId (-t.amount)
  else if t.type = "TRANSFER" then
    match t.accountToId with
    | none => Except.error ("account_to_id is required for TRANSFER reversal")
    | some toId =>
      match applyBalanceChange accounts t.accountFromId t.amount with
      | Except.error e => Except.error e
      | Except.ok accounts1 => applyBalanceChange accounts1 toId (-t.amount)
  else
    Except.error ("unsupported transaction type for balance reversal: " ++ t.type)

/-- The signed amount an entry contributes in updateAccountBalances:
CREDIT amounts are negated. -/
def entrySignedAmount (e : JournalEntry) : Money :=
  if e.debitOrCredit = "CREDIT" then -e.amount else e.amount

/-- One step of the accountUpdates map accumulation: add the amount to an
existing key or append a new key. -/
def addDelta (updates : List (Nat × Money)) (aid : Nat) (amt : Money) : List (Nat × Money) :=
  match updates with
  | [] => [(aid, amt)]
  | (k, v) :: rest =>
      if k = aid then (k, v + amt) :: rest else (k, v) :: addDelta rest aid amt

/-- The accountUpdates map of updateAccountBalances, as an association
list in first-occurrence order (one aggregated delta per account id, so
the final state does not depend on the Go map iteration order). -/
def accumulateDeltas (entries : List JournalEntry) : List (Nat × Money) :=
  entries.foldl (fun updates e => addDelta updates e.accountId (entrySignedAmount e)) []

/-- updateAccountBalances (accounting_engine_service.go lines 224-264):
the entry-derived balance updater.  Each aggregated delta is applied to
the row with that id; an id with no account row is skipped (the
ErrRecordNotFound continue), which applyDelta renders as a no-op. -/
def updateAccountBalances (entries : List JournalEntry) (accounts : List Account) :
    List Account :=
  (accumulateDeltas entries).foldl (fun accs kv => applyDelta accs kv.1 kv.2) accounts

/-- The persistent ledger visible to the engines: account rows,
transaction rows and journal-entry rows. -/
structure LedgerState where
  accounts : List Account
  transactions : List Transaction
  entries : List JournalEntry
deriving Repr, DecidableEq

/-- ProcessTransaction (src/unnamed/part_007 lines 127-165): validate,
insert the transaction, generate entries, validate balance, insert
entries, update real-account balances.  An error at any step means the
surrounding database transaction rolls back, so the Except.error result
carries no state: the ledger is unchanged on failure. -/
def processTransaction (s : LedgerState) (t : Transaction) : Except String LedgerState :=
  match t.Validate with
  | Except.error e => Except.error ("transaction validation failed: " ++ e)
  | Except.ok _ =>
    match generateJournalEntries t with
    | Except.error e => Except.error ("failed to generate journal entries: " ++ e)
    | Except.ok es =>
      match validateBalance es with
      | Except.error e => Except.error ("balance validation failed: " ++ e)
      | Except.ok _ =>
        match updateRealAccountBalances t s.accounts with
        | Except.error e => Except.error ("failed to update account balances: " ++ e)
        | Except.ok accounts1 =>
          Except.ok { accounts := accounts1,
                      transactions := s.transactions ++ [t],
                      entries := s.entries ++ es }

/-- ProcessTransaction of the entry-derived engine variant
(accounting_engine_service.go lines 52-88): identical except that the
final step is updateAccountBalances over the generated entries, which
never fails. -/
def processTransactionEntryBased (s : LedgerState) (t : Transaction) :
    Except String LedgerState :=
  match t.Validate with
  | Except.error e => Except.error ("transaction validation failed: " ++ e)
  | Except.ok _ =>
    match generateJournalEntries t with
    | Except.error e => Except.error ("failed to generate journal entries: " ++ e)
    | Except.ok es =>
      match validateBalance es with
      | Except.error e => Except.error ("balance validation failed: " ++ e)
      | Except.ok _ =>
        Except.ok { accounts := updateAccountBalances es s.accounts,
                    transactions := s.transactions ++ [t],
                    entries := s.entries ++ es }

/-- transactionRepository.FindByID: the row with the given primary key. -/
def findTransaction (transactions : List Transaction) (txId : Nat) : Option Transaction :=
  transactions.find? (fun t => t.id = txId)

/-- journalEntryRepository.FindByTransaction: all entries of the
transaction. -/
def entriesByTransaction (entries : List JournalEntry) (txId : Nat) : List JournalEntry :=
  entries.filter (fun e => e.transactionId = txId)

/-- The side swap of ReverseTransaction: reversedType starts as "DEBIT"
and becomes "CREDIT" exactly when the original side is "DEBIT". -/
def reversedSide (side : String) : String :=
  if side = "DEBIT" then "CREDIT" else "DEBIT"

/-- The compensating entries of ReverseTransaction: same account, owner
and amount, side swapped, entry date now, description prefixed. -/
def reversingEntries (txId : Nat) (now : Int) (originals : List JournalEntry) :
    List JournalEntry :=
  originals.map (fun original =>
    { userId := original.userId,
      transactionId := txId,
      accountId := original.accountId,
      debitOrCredit := reversedSide original.debitOrCredit,
      amount := original.amount,
      entryDate := now,
      description := "REVERSAL: " ++ original.description })

/-- The Save of the original transaction with IsReconciled set to true. -/
def setReconciled (transactions : List Transaction) (txId : Nat) : List Transaction :=
  transactions.map (fun t => if t.id = txId then { t with isReconciled := true } else t)

/-- ReverseTransaction (src/unnamed/part_007 lines 366-420): load the
transaction, load its entries, append side-swapped compensating entries,
apply the inverse real-account deltas, and mark the original reconciled.
There is no already-reversed guard anywhere in this function. -/
def reverseTransaction (s : LedgerState) (txId : Nat) (now : Int) :
    Except String LedgerState :=
  match findTransaction s.transactions txId with
  | none => Except.error ("transaction not found")
  | some tx =>
    let originalEntries := entriesByTransaction s.entries txId
    let reversing := reversingEntries txId now originalEntries
    match reverseRealAccountBalances tx s.accounts with
    | Except.error e => Except.error ("failed to update balances during reversal: " ++ e)
    | Except.ok accounts1 =>
      Except.ok { accounts := accounts1,
                  transactions := setReconciled s.transactions txId,
                  entries := s.entries ++ reversing }

/-- dtos.UpdateTransactionRequest (transaction_dto.go lines 23-30): the
update payload carries optional description, amount, transaction date,
notes and reconciled flag — nothing else. -/
structure UpdateTransactionRequest where
  description : Option String
  amount : Option Money
  transactionDate : Option Int
  notes : Option String
  isReconciled : Option Bool
deriving Repr, DecidableEq

/-- The field application step of transactionService.Update: only
Description, Notes and IsReconciled are copied from the request; the
Amount and TransactionDate fields of the request are never read. -/
def applyUpdates (t : Transaction) (req : UpdateTransactionRequest) : Transaction :=
  let t1 := match req.description with
    | some d => { t with description := d }
    | none => t
  let t2 := match req.notes with
    | some n => { t1 with notes := n }
    | none => t1
  match req.isReconciled with
  | some b => { t2 with isReconciled := b }
  | none => t2

/-- transactionRepository.Update (src/unnamed/part_008 lines 173-179):
re-validate, then Save the row by primary key. -/
def repositoryUpdate (db : List Transaction) (t : Transaction) :
    Except String (List Transaction) :=
  match t.Validate with
  | Except.error e => Except.error e
  | Except.ok _ =>
    Except.ok (db.map (fun row => if row.id = t.id then t else row))

/-- transactionService.Update (the coordinator, see the services file
holding TransactionService, lines 296-317): load, apply the mutable
fields, store.  No ImmutableField error exists in the source. -/
def transactionServiceUpdate (db : List Transaction) (id : Nat)
    (req : UpdateTransactionRequest) : Except String (List Transaction) :=
  match findTransaction db id with
  | none => Except.error ("transaction not found")
  | some t => repositoryUpdate db (applyUpdates t req)

/-- Truncation toward zero, the effect of the Go int(float64) conversion
on runway days. -/
def truncTowardZero (q : ℚ) : Int :=
  if 0 ≤ q then Int.floor q else Int.ceil q

/-- calculateRunway (src/unnamed/part_005 lines 118-154), returning
(runwayMonths, runwayDays, avgMonthlyExpenses).  The three inputs of
monthlyExpenses are the GetMonthlyStats expense totals of the current
and two preceding months; months with zero expenses are skipped.  The
source divides decimals and converts to float64; the divisions are
idealised as exact rationals, which is irrelevant on the zero-data path
where no division happens at all. -/
def calculateRunway (liquidAssets liabilities : Money) (monthlyExpenses : List Money) :
    ℚ × Int × ℚ :=
  let availableFunds : ℚ := (liquidAssets : ℚ) - (liabilities : ℚ)
  let withData := monthlyExpenses.filter (fun e => e ≠ 0)
  let monthsWithData := withData.length
  let totalExpenses : Money := withData.foldl (fun acc e => acc + e) 0
  if monthsWithData = 0 ∨ totalExpenses = 0 then
    (0, 0, 0)
  else
    let avgMonthlyExpenses : ℚ := (totalExpenses : ℚ) / (monthsWithData : ℚ)
    let runwayMonths : ℚ := availableFunds / avgMonthlyExpenses
    (runwayMonths, truncTowardZero (runwayMonths * 30), avgMonthlyExpenses)

/-- The status/message fields of dtos.RunwayCalculation produced by
CalculateRunway. -/
structure RunwayCalculation where
  runwayMonths : ℚ
  runwayDays : Int
  avgMonthlyExpenses : ℚ
  status : String
  message : String
deriving Repr, DecidableEq

/-- CalculateRunway (src/unnamed/part_005 lines 157-206): status starts
HEALTHY and is overwritten to CRITICAL when runwayMonths < 3, else to
WARNING when runwayMonths < 6, each with its message. -/
def CalculateRunway (liquidAssets liabilities : Money) (monthlyExpenses : List Money) :
    RunwayCalculation :=
  let r := calculateRunway liquidAssets liabilities monthlyExpenses
  let status :=
    if r.1 < 3 then "CRITICAL" else if r.1 < 6 then "WARNING" else "HEALTHY"
  let message :=
    if r.1 < 3 then
      "⚠️ CRITICAL: Your runway is less than 3 months. Consider increasing income or reducing expenses immediately."
    else if r.1 < 6 then
      "⚠️ WARNING: Your runway is below 6 months. Consider building a larger emergency fund."
    else
      "Your financial runway is healthy. Keep it up!"
  { runwayMonths := r.1, runwayDays := r.2.1, avgMonthlyExpenses := r.2.2,
    status := status, message := message }

/-- Proleptic Gregorian leap year, as the Go time package computes it. -/
def isLeapYear (y : Nat) : Bool :=
  (y % 4 = 0 ∧ y % 100 ≠ 0) ∨ y % 400 = 0

/-- Days in month m of year y for m in 1..12 (0 outside). -/
def daysInMonth (y m : Nat) : Nat :=
  if m = 1 then 31
  else if m = 2 then (if isLeapYear y then 29 else 28)
  else if m = 3 then 31
  else if m = 4 then 30
  else if m = 5 then 31
  else if m = 6 then 30
  else if m = 7 then 31
  else if m = 8 then 31
  else if m = 9 then 30
  else if m = 10 then 31
  else if m = 11 then 30
  else if m = 12 then 31
  else 0

/-- Days in all years before year y (year numbering from an arbitrary
epoch year 0; only differences of these counts matter here). -/
def daysBeforeYear : Nat → Nat
  | 0 => 0
  | y + 1 => daysBeforeYear y + (if isLeapYear y then 366 else 365)

/-- Days in the months of year y strictly before month m (for m in
1..12;m = 1 and out-of-range months give 0). -/
def daysBeforeMonth (y m : Nat) : Nat :=
  let feb := if isLeapYear y then 29 else 28
  if m = 2 then 31
  else if m = 3 then 31 + feb
  else if m = 4 then 62 + feb
  else if m = 5 then 92 + feb
  else if m = 6 then 123 + feb
  else if m = 7 then 153 + feb
  else if m = 8 then 184 + feb
  else if m = 9 then 215 + feb
  else if m = 10 then 245 + feb
  else if m = 11 then 276 + feb
  else if m = 12 then 306 + feb
  else 0

/-- The timestamp of time.Date(year, month, 1, 0, 0, 0, 0, UTC): midnight
UTC opening the month, in seconds. -/
def monthStartSec (y m : Nat) : Int :=
  86400 * ((daysBeforeYear y : Int) + (daysBeforeMonth y m : Int))

/-- startDate.AddDate(0, 1, 0) normalisation: month 13 rolls into January
of the next year. -/
def nextMonth (y m : Nat) : Nat × Nat :=
  if m = 12 then (y + 1, 1) else (y, m + 1)

/-- Sum of transaction amounts, the COALESCE(SUM(amount), 0) aggregate. -/
def sumAmounts (ts : List Transaction) : Money :=
  ts.foldl (fun acc t => acc + t.amount) 0

/-- The month window test of GetMonthlyStats: user match and
transaction_date in [startDate, endDate]. -/
def inMonthWindow (userID : Nat) (startDate endDate : Int) (t : Transaction) : Bool :=
  t.userId == userID && decide (startDate ≤ t.transactionDate) &&
    decide (t.transactionDate ≤ endDate)

/-- GetMonthlyStats (src/unnamed/part_008 lines 186-227), returning
(income, expenses, count).  startDate is the first instant of the month,
endDate is AddDate(0,1,0).Add(-time.Second), one second before the next
month opens.  The income and expense sums filter on user, type and date
only; the count filters on user and date only.  No reversed or
reconciled condition appears anywhere in the three queries. -/
def GetMonthlyStats (db : List Transaction) (userID : Nat) (month year : Nat) :
    Money × Money × Nat :=
  let startDate := monthStartSec year month
  let endDate := monthStartSec (nextMonth year month).1 (nextMonth year month).2 - 1
  let income := sumAmounts (db.filter (fun t =>
    inMonthWindow userID startDate endDate t && t.type == "INCOME"))
  let expenses := sumAmounts (db.filter (fun t =>
    inMonthWindow userID startDate endDate t && t.type == "EXPENSE"))
  let count := (db.filter (fun t => inMonthWindow userID startDate endDate t)).length
  (income, expenses, count)

/-- Modelled from the spec, for comparison only: the monthly expense sum
as §4.F words it, "Σ amount over non-reversed transactions of kind=EXPENSE
in month".  The transaction model has no reversed column; the reversal
engine records reversal by setting IsReconciled, so non-reversed is
rendered as IsReconciled = false. -/
def monthlyExpensesSpec (db : List Transaction) (userID : Nat) (month year : Nat) :
    Money :=
  let startDate := monthStartSec year month
  let endDate := monthStartSec (nextMonth year month).1 (nextMonth year month).2 - 1
  sumAmounts (db.filter (fun t =>
    inMonthWindow userID startDate endDate t && t.type == "EXPENSE" && !t.isReconciled))

/-- The balance delta the §4.D entry-generation table prescribes for an
account id under a posting: EXPENSE takes amount from account_from,
INCOME adds it, TRANSFER moves it from account_from to account_to.
Transcribed from the specification table as the comparison target for
the balance-update theorems. -/
def postDelta (t : Transaction) (aid : Nat) : Money :=
  if t.type = "EXPENSE" then
    (if aid = t.accountFromId then -t.amount else 0)
  else if t.type = "INCOME" then
    (if aid = t.accountFromId then t.amount else 0)
  else if t.type = "TRANSFER" then
    (if aid = t.accountFromId then -t.amount else 0) +
      (match t.accountToId with
       | some toId => if aid = toId then t.amount else 0
       | none => 0)
  else 0

/-- The disjunction of pre-validation rules named by the specification:
non-positive amount, empty description, zero date, TRANSFER with a
category or without a destination, INCOME/EXPENSE with a destination or
without a category. -/
def violatesPreValidation (t : Transaction) : Prop :=
  t.amount ≤ 0 ∨ t.description = "" ∨ t.transactionDate = 0 ∨
    (t.type = "TRANSFER" ∧ (t.categoryId ≠ none ∨ t.accountToId = none)) ∨
    ((t.type = "INCOME" ∨ t.type = "EXPENSE") ∧
      (t.accountToId ≠ none ∨ t.categoryId = none))

/- Concrete fixtures for the closed counterexample and witness
theorems: a bank account, an expense transaction against it, and the
ledger states reached by posting and reversing it. -/

/-- A real bank account with id 1 and opening balance 1000. -/
def exBank : Account :=
  { id := 1, userId := 1, name := "BANK1", accountType := "BANK",
    currencyId := some 1, balance := 1000, isActive := true }

/-- A nominal category account row whose id 7 coincides with the
category id used by the expense fixture. -/
def exCategoryAccount : Account :=
  { id := 7, userId := 1, name := "FOOD", accountType := "CATEGORY",
    currencyId := some 1, balance := 0, isActive := true }

/-- A valid EXPENSE transaction of amount 150 from account 1 against
category 7. -/
def exExpense : Transaction :=
  { id := 5, userId := 1, type := "EXPENSE", description := "food",
    amount := 150, amountInUSD := 150, exchangeRate := 1,
    accountFromId := 1, accountToId := none, categoryId := some 7,
    transactionDate := 100, notes := "", isReconciled := false }

/-- A valid TRANSFER transaction of amount 100 from account 1 to
account 2. -/
def exTransfer : Transaction :=
  { id := 6, userId := 1, type := "TRANSFER", description := "move",
    amount := 100, amountInUSD := 100, exchangeRate := 1,
    accountFromId := 1, accountToId := some 2, categoryId := none,
    transactionDate := 100, notes := "", isReconciled := false }

/-- The destination account of the transfer fixture, with id 2. -/
def exBank2 : Account :=
  { id := 2, userId := 1, name := "BANK2", accountType := "BANK",
    currencyId := some 1, balance := 0, isActive := true }

/-- The initial ledger: one bank account, no transactions, no entries. -/
def exState0 : LedgerState :=
  { accounts := [exBank], transactions := [], entries := [] }

/-- The ledger after posting the expense fixture. -/
def exStatePosted : LedgerState :=
  (processTransaction exState0 exExpense).toOption.getD exState0

/-- The ledger after reversing the expense once (entry timestamp 1000). -/
def exStateReversedOnce : LedgerState :=
  (reverseTransaction exStatePosted 5 1000).toOption.getD exStatePosted

/-- The ledger after the second reversal call (entry timestamp 2000),
which the source accepts. -/
def exStateReversedTwice : LedgerState :=
  (reverseTransaction exStateReversedOnce 5 2000).toOption.getD exStateReversedOnce

/-- A ledger holding both the bank account and the category account row
whose id collides with the expense fixture's category id. -/
def exStateWithCat : LedgerState :=
  { accounts := [exBank, exCategoryAccount], transactions := [], entries := [] }

/-- The ledger after the entry-derived engine posts the expense fixture
into exStateWithCat. -/
def exStateCatPosted : LedgerState :=
  (processTransactionEntryBased exStateWithCat exExpense).toOption.getD exStateWithCat

/-- The entries the engine generates for the transfer fixture. -/
def exTransferEntries : List JournalEntry :=
  [{ userId := 1, transactionId := 6, accountId := 2, debitOrCredit := "DEBIT",
     amount := 100, entryDate := 100, description := "Transfer in: move" },
   { userId := 1, transactionId := 6, accountId := 1, debitOrCredit := "CREDIT",
     amount := 100, entryDate := 100, description := "Transfer out: move" }]

/-- The entries the engine generates for the expense fixture. -/
def exExpenseEntries : List JournalEntry :=
  [{ userId := 1, transactionId := 5, accountId := 7, debitOrCredit := "DEBIT",
     amount := 150, entryDate := 100, description := "Expense: food" },
   { userId := 1, transactionId := 5, accountId := 1, debitOrCredit := "CREDIT",
     amount := 150, entryDate := 100, description := "Payment: food" }]

/-- The expense fixture flagged reconciled, as the reversal engine leaves
a reversed transaction. -/
def exReconciledExpense : Transaction :=
  { exExpense with isReconciled := true }

/-- An update request that tries to change the amount and the date. -/
def exUpdateReq : UpdateTransactionRequest :=
  { description := none, amount := some 999, transactionDate := some 77,
    notes := none, isReconciled := none }

/-- The expense fixture with a zero amount, violating pre-validation. -/
def exZeroAmount : Transaction :=
  { exExpense with amount := 0 }

/-! Helper lemmas about the balance store. -/

theorem getBalance_cons (a : Account) (rest : List Account) (bid : Nat) :
    getBalance (a :: rest) bid =
      if a.id = bid then some a.balance else getBalance rest bid := by
  by_cases h : a.id = bid <;> simp [getBalance, List.find?_cons, h]

theorem getBalance_applyDelta (accounts : List Account) (aid : Nat) (d : Money)
    (bid : Nat) :
    getBalance (applyDelta accounts aid d) bid =
      if bid = aid then (getBalance accounts bid).map (fun b => b + d)
      else getBalance accounts bid := by
  induction accounts with
  | nil => by_cases h : bid = aid <;> simp [getBalance, applyDelta, h]
  | cons a rest ih =>
    have hcons : applyDelta (a :: rest) aid d =
        (if a.id = aid then { a with balance := a.balance + d } else a) ::
          applyDelta rest aid d := by
      simp [applyDelta]
    rw [hcons]
    by_cases ha : a.id = aid
    · by_cases hb : a.id = bid
      · have hba : bid = aid := by rw [← hb, ha]
        simp [getBalance_cons, ha, hb, hba]
      · have hba : ¬ (bid = aid) := fun hh => hb (by rw [ha, ← hh])
        have hab : ¬ (aid = bid) := fun hh => hba hh.symm
        simp [getBalance_cons, ha, hb, hba, hab, ih]
    · by_cases hb : a.id = bid
      · have hba : ¬ (bid = aid) := fun hh => ha (by rw [hb, hh])
        simp [getBalance_cons, ha, hb, hba]
      · simp [getBalance_cons, ha, hb, ih]

theorem accountExists_applyDelta (accounts : List Account) (aid : Nat) (d : Money)
    (bid : Nat) :
    accountExists (applyDelta accounts aid d) bid = accountExists accounts bid := by
  rw [accountExists, accountExists, applyDelta, List.any_map]
  congr 1
  funext a
  by_cases h : a.id = aid <;> simp [h, Function.comp]

theorem getBalance_eq_none (accounts : List Account) (bid : Nat)
    (h : accountExists accounts bid = false) : getBalance accounts bid = none := by
  induction accounts with
  | nil => rfl
  | cons a rest ih =>
    simp only [accountExists, List.any_cons, Bool.or_eq_false_iff] at h
    rw [getBalance_cons]
    have ha : ¬ a.id = bid := by simpa using h.1
    simp [ha, ih h.2]

theorem applyBalanceChange_eq_ok (accounts : List Account) (aid : Nat) (d : Money)
    (accs : List Account) :
    applyBalanceChange accounts aid d = Except.ok accs ↔
      accountExists accounts aid = true ∧ accs = applyDelta accounts aid d := by
  unfold applyBalanceChange
  split
  · rename_i h
    constructor
    · intro hk
      cases hk
      exact ⟨h, rfl⟩
    · intro hk
      rw [hk.2]
  · rename_i h
    constructor
    · intro hk
      simp at hk
    · intro hk
      exact absurd hk.1 h

theorem map_add_zero (o : Option Money) : o.map (fun b => b + 0) = o := by
  cases o <;> simp

/-! Helper lemmas about the debit/credit totals. -/

theorem foldl_side_shift (side : String) (l : List JournalEntry) (init : Money) :
    l.foldl (fun acc e => if e.debitOrCredit = side then acc + e.amount else acc) init =
      init +
        l.foldl (fun acc e => if e.debitOrCredit = side then acc + e.amount else acc) 0 := by
  induction l generalizing init with
  | nil => simp
  | cons e rest ih =>
    simp only [List.foldl_cons]
    rw [ih, ih (if e.debitOrCredit = side then 0 + e.amount else 0)]
    by_cases h : e.debitOrCredit = side <;> (simp [h]; try ring)

theorem totalDebits_cons (e : JournalEntry) (l : List JournalEntry) :
    totalDebits (e :: l) =
      (if e.debitOrCredit = "DEBIT" then e.amount else 0) + totalDebits l := by
  rw [totalDebits, List.foldl_cons, foldl_side_shift, totalDebits]
  by_cases h : e.debitOrCredit = "DEBIT" <;> simp [h]

theorem totalCredits_cons (e : JournalEntry) (l : List JournalEntry) :
    totalCredits (e :: l) =
      (if e.debitOrCredit = "CREDIT" then e.amount else 0) + totalCredits l := by
  rw [totalCredits, List.foldl_cons, foldl_side_shift, totalCredits]
  by_cases h : e.debitOrCredit = "CREDIT" <;> simp [h]

theorem totalDebits_append (l1 l2 : List JournalEntry) :
    totalDebits (l1 ++ l2) = totalDebits l1 + totalDebits l2 := by
  rw [totalDebits, List.foldl_append, foldl_side_shift]
  rfl

theorem totalCredits_append (l1 l2 : List JournalEntry) :
    totalCredits (l1 ++ l2) = totalCredits l1 + totalCredits l2 := by
  rw [totalCredits, List.foldl_append, foldl_side_shift]
  rfl

theorem totalCredits_reversingEntries (txId : Nat) (now : Int) (l : List JournalEntry) :
    totalCredits (reversingEntries txId now l) = totalDebits l := by
  induction l with
  | nil => rfl
  | cons e rest ih =>
    simp only [reversingEntries, List.map_cons] at ih ⊢
    rw [totalCredits_cons, totalDebits_cons, ih]
    by_cases h : e.debitOrCredit = "DEBIT" <;> simp [reversedSide, h]

theorem totalDebits_reversingEntries (txId : Nat) (now : Int) (l : List JournalEntry)
    (h : ∀ e ∈ l, e.debitOrCredit = "DEBIT" ∨ e.debitOrCredit = "CREDIT") :
    totalDebits (reversingEntries txId now l) = totalCredits l := by
  induction l with
  | nil => rfl
  | cons e rest ih =>
    simp only [reversingEntries, List.map_cons] at ih ⊢
    rw [totalDebits_cons, totalCredits_cons,
      ih (fun x hx => h x (List.mem_cons_of_mem e hx))]
    rcases h e (List.mem_cons_self e rest) with hd | hc
    · simp [reversedSide, hd]
    · have hnd : ¬ e.debitOrCredit = "DEBIT" := by rw [hc]; decide
      simp [reversedSide, hc, hnd]

/-! Helper lemmas about validation and entry generation. -/

theorem validate_ok_iff (t : Transaction) :
    t.Validate = Except.ok () ↔
      (¬(t.amount = 0 ∨ t.amount < 0) ∧ t.type ≠ "" ∧
        ¬(t.type = "TRANSFER" ∧ t.accountToId = none) ∧
        ¬(t.type = "TRANSFER" ∧ t.categoryId ≠ none) ∧
        ¬((t.type = "INCOME" ∨ t.type = "EXPENSE") ∧ t.categoryId = none) ∧
        ¬((t.type = "INCOME" ∨ t.type = "EXPENSE") ∧ t.accountToId ≠ none) ∧
        t.description ≠ "" ∧ ¬(t.exchangeRate ≠ 0 ∧ t.exchangeRate < 0) ∧
        t.transactionDate ≠ 0) := by
  unfold Transaction.Validate
  repeat' split
  all_goals simp_all

theorem generate_expense (t : Transaction) (cid : Nat)
    (ht : t.type = "EXPENSE") (hc : t.categoryId = some cid) :
    generateJournalEntries t = Except.ok
      [{ userId := t.userId, transactionId := t.id, accountId := cid,
         debitOrCredit := "DEBIT", amount := t.amount,
         entryDate := t.transactionDate,
         description := "Expense: " ++ t.description },
       { userId := t.userId, transactionId := t.id, accountId := t.accountFromId,
         debitOrCredit := "CREDIT", amount := t.amount,
         entryDate := t.transactionDate,
         description := "Payment: " ++ t.description }] := by
  simp [generateJournalEntries, ht, hc]

theorem generate_income (t : Transaction) (cid : Nat)
    (ht : t.type = "INCOME") (hc : t.categoryId = some cid) :
    generateJournalEntries t = Except.ok
      [{ userId := t.userId, transactionId := t.id, accountId := t.accountFromId,
         debitOrCredit := "DEBIT", amount := t.amount,
         entryDate := t.transactionDate,
         description := "Income: " ++ t.description },
       { userId := t.userId, transactionId := t.id, accountId := cid,
         debitOrCredit := "CREDIT", amount := t.amount,
         entryDate := t.transactionDate,
         description := "Revenue: " ++ t.description }] := by
  simp [generateJournalEntries, ht, hc]

theorem generate_transfer (t : Transaction) (toId : Nat)
    (ht : t.type = "TRANSFER") (hto : t.accountToId = some toId) :
    generateJournalEntries t = Except.ok
      [{ userId := t.userId, transactionId := t.id, accountId := toId,
         debitOrCredit := "DEBIT", amount := t.amount,
         entryDate := t.transactionDate,
         description := "Transfer in: " ++ t.description },
       { userId := t.userId, transactionId := t.id, accountId := t.accountFromId,
         debitOrCredit := "CREDIT", amount := t.amount,
         entryDate := t.transactionDate,
         description := "Transfer out: " ++ t.description }] := by
  simp [generateJournalEntries, ht, hto]

theorem generate_txId (t : Transaction) (es : List JournalEntry)
    (h : generateJournalEntries t = Except.ok es) :
    ∀ e ∈ es, e.transactionId = t.id := by
  unfold generateJournalEntries at h
  repeat' split at h
  all_goals first
    | exact Except.noConfusion h
    | (injection h with h2
       subst h2
       intro e he
       simp only [List.mem_cons, List.not_mem_nil, or_false] at he
       rcases he with rfl | rfl <;> rfl)

theorem generate_sides (t : Transaction) (es : List JournalEntry)
    (h : generateJournalEntries t = Except.ok es) :
    ∀ e ∈ es, e.debitOrCredit = "DEBIT" ∨ e.debitOrCredit = "CREDIT" := by
  unfold generateJournalEntries at h
  repeat' split at h
  all_goals first
    | exact Except.noConfusion h
    | (injection h with h2
       subst h2
       intro e he
       simp only [List.mem_cons, List.not_mem_nil, or_false] at he
       rcases he with rfl | rfl <;> simp)

/-! Characterisations of the transaction-derived balance updaters. -/

theorem map_sub_eq (o : Option Money) (x : Money) :
    o.map (fun b => b + -x) = o.map (fun b => b - x) := by
  cases o <;> simp [sub_eq_add_neg]

theorem getBalance_applyDelta1 (accs : List Account) (f : Nat) (d : Money)
    (aid : Nat) (D : Money) (hD : D = if aid = f then d else 0) :
    getBalance (applyDelta accs f d) aid = (getBalance accs aid).map (fun b => b + D) := by
  rw [getBalance_applyDelta]
  by_cases h : aid = f
  · rw [if_pos h]
    rw [if_pos h] at hD
    rw [hD]
  · rw [if_neg h]
    rw [if_neg h] at hD
    rw [hD]
    exact (map_add_zero _).symm

theorem getBalance_applyDelta2 (accs : List Account) (f g : Nat) (d1 d2 : Money)
    (aid : Nat) (D : Money)
    (hD : D = (if aid = f then d1 else 0) + (if aid = g then d2 else 0)) :
    getBalance (applyDelta (applyDelta accs f d1) g d2) aid =
      (getBalance accs aid).map (fun b => b + D) := by
  rw [getBalance_applyDelta, getBalance_applyDelta]
  by_cases h1 : aid = g
  · rw [if_pos h1]
    by_cases h2 : aid = f
    · rw [if_pos h2]
      rw [if_pos h2, if_pos h1] at hD
      rw [hD]
      cases getBalance accs aid <;> simp [add_assoc]
    · rw [if_neg h2]
      rw [if_neg h2, if_pos h1] at hD
      rw [hD]
      cases getBalance accs aid <;> simp
  · rw [if_neg h1]
    by_cases h2 : aid = f
    · rw [if_pos h2]
      rw [if_pos h2, if_neg h1] at hD
      rw [hD]
      cases getBalance accs aid <;> simp
    · rw [if_neg h2]
      rw [if_neg h2, if_neg h1] at hD
      rw [hD]
      cases getBalance accs aid <;> simp

theorem updateReal_getBalance (t : Transaction) (accs accs1 : List Account)
    (h : updateRealAccountBalances t accs = Except.ok accs1) (aid : Nat) :
    getBalance accs1 aid = (getBalance accs aid).map (fun b => b + postDelta t aid) := by
  by_cases hE : t.type = "EXPENSE"
  · rw [updateRealAccountBalances, if_pos hE] at h
    obtain ⟨hex, h2⟩ := (applyBalanceChange_eq_ok _ _ _ _).mp h
    subst h2
    exact getBalance_applyDelta1 accs t.accountFromId (-t.amount) aid
      (postDelta t aid) (by simp [postDelta, hE])
  · by_cases hI : t.type = "INCOME"
    · rw [updateRealAccountBalances, if_neg hE, if_pos hI] at h
      obtain ⟨hex, h2⟩ := (applyBalanceChange_eq_ok _ _ _ _).mp h
      subst h2
      exact getBalance_applyDelta1 accs t.accountFromId t.amount aid
        (postDelta t aid) (by simp [postDelta, hE, hI])
    · by_cases hT : t.type = "TRANSFER"
      · rw [updateRealAccountBalances, if_neg hE, if_neg hI, if_pos hT] at h
        cases hto : t.accountToId with
        | none =>
          rw [hto] at h
          exact Except.noConfusion h
        | some toId =>
          rw [hto] at h
          cases h1 : applyBalanceChange accs t.accountFromId (-t.amount) with
          | error e =>
            rw [h1] at h
            exact Except.noConfusion h
          | ok mid =>
            rw [h1] at h
            obtain ⟨hex1, h3⟩ := (applyBalanceChange_eq_ok _ _ _ _).mp h1
            obtain ⟨hex2, h2⟩ := (applyBalanceChange_eq_ok _ _ _ _).mp h
            subst h3
            subst h2
            exact getBalance_applyDelta2 accs t.accountFromId toId (-t.amount) t.amount
              aid (postDelta t aid) (by simp [postDelta, hE, hI, hT, hto])
      · rw [updateRealAccountBalances, if_neg hE, if_neg hI, if_neg hT] at h
        exact Except.noConfusion h

theorem reverseReal_getBalance (t : Transaction) (accs accs1 : List Account)
    (h : reverseRealAccountBalances t accs = Except.ok accs1) (aid : Nat) :
    getBalance accs1 aid = (getBalance accs aid).map (fun b => b - postDelta t aid) := by
  rw [← map_sub_eq]
  by_cases hE : t.type = "EXPENSE"
  · rw [reverseRealAccountBalances, if_pos hE] at h
    obtain ⟨hex, h2⟩ := (applyBalanceChange_eq_ok _ _ _ _).mp h
    subst h2
    refine getBalance_applyDelta1 accs t.accountFromId t.amount aid
      (-postDelta t aid) ?_
    by_cases ha : aid = t.accountFromId <;> simp [postDelta, hE, ha]
  · by_cases hI : t.type = "INCOME"
    · rw [reverseRealAccountBalances, if_neg hE, if_pos hI] at h
      obtain ⟨hex, h2⟩ := (applyBalanceChange_eq_ok _ _ _ _).mp h
      subst h2
      refine getBalance_applyDelta1 accs t.accountFromId (-t.amount) aid
        (-postDelta t aid) ?_
      by_cases ha : aid = t.accountFromId <;> simp [postDelta, hE, hI, ha]
    · by_cases hT : t.type = "TRANSFER"
      · rw [reverseRealAccountBalances, if_neg hE, if_neg hI, if_pos hT] at h
        cases hto : t.accountToId with
        | none =>
          rw [hto] at h
          exact Except.noConfusion h
        | some toId =>
          rw [hto] at h
          cases h1 : applyBalanceChange accs t.accountFromId t.amount with
          | error e =>
            rw [h1] at h
            exact Except.noConfusion h
          | ok mid =>
            rw [h1] at h
            obtain ⟨hex1, h3⟩ := (applyBalanceChange_eq_ok _ _ _ _).mp h1
            obtain ⟨hex2, h2⟩ := (applyBalanceChange_eq_ok _ _ _ _).mp h
            subst h3
            subst h2
            refine getBalance_applyDelta2 accs t.accountFromId toId t.amount (-t.amount)
              aid (-postDelta t aid) ?_
            have hD : postDelta t aid =
                (if aid = t.accountFromId then -t.amount else 0) +
                  (if aid = toId then t.amount else 0) := by
              rw [postDelta, if_neg hE, if_neg hI, if_pos hT, hto]
            rw [hD]
            split_ifs <;> ring
      · rw [reverseRealAccountBalances, if_neg hE, if_neg hI, if_neg hT] at h
        exact Except.noConfusion h

theorem reverseReal_ok_after (t : Transaction) (accs accs1 : List Account)
    (h : updateRealAccountBalances t accs = Except.ok accs1) :
    ∃ accs2, reverseRealAccountBalances t accs1 = Except.ok accs2 := by
  by_cases hE : t.type = "EXPENSE"
  · rw [updateRealAccountBalances, if_pos hE] at h
    obtain ⟨hex, h2⟩ := (applyBalanceChange_eq_ok _ _ _ _).mp h
    subst h2
    refine ⟨applyDelta (applyDelta accs t.accountFromId (-t.amount))
      t.accountFromId t.amount, ?_⟩
    rw [reverseRealAccountBalances, if_pos hE, applyBalanceChange_eq_ok]
    exact ⟨by rw [accountExists_applyDelta]; exact hex, rfl⟩
  · by_cases hI : t.type = "INCOME"
    · rw [updateRealAccountBalances, if_neg hE, if_pos hI] at h
      obtain ⟨hex, h2⟩ := (applyBalanceChange_eq_ok _ _ _ _).mp h
      subst h2
      refine ⟨applyDelta (applyDelta accs t.accountFromId t.amount)
        t.accountFromId (-t.amount), ?_⟩
      rw [reverseRealAccountBalances, if_neg hE, if_pos hI, applyBalanceChange_eq_ok]
      exact ⟨by rw [accountExists_applyDelta]; exact hex, rfl⟩
    · by_cases hT : t.type = "TRANSFER"
      · rw [updateRealAccountBalances, if_neg hE, if_neg hI, if_pos hT] at h
        cases hto : t.accountToId with
        | none =>
          rw [hto] at h
          exact Except.noConfusion h
        | some toId =>
          rw [hto] at h
          cases h1 : applyBalanceChange accs t.accountFromId (-t.amount) with
          | error e =>
            rw [h1] at h
            exact Except.noConfusion h
          | ok mid =>
            rw [h1] at h
            obtain ⟨hex1, h3⟩ := (applyBalanceChange_eq_ok _ _ _ _).mp h1
            obtain ⟨hex2, h2⟩ := (applyBalanceChange_eq_ok _ _ _ _).mp h
            subst h3
            subst h2
            have hx1 : applyBalanceChange
                (applyDelta (applyDelta accs t.accountFromId (-t.amount)) toId t.amount)
                t.accountFromId t.amount =
                Except.ok (applyDelta
                  (applyDelta (applyDelta accs t.accountFromId (-t.amount)) toId t.amount)
                  t.accountFromId t.amount) := by
              rw [applyBalanceChange_eq_ok]
              refine ⟨?_, rfl⟩
              rw [accountExists_applyDelta, accountExists_applyDelta]
              exact hex1
            rw [reverseRealAccountBalances, if_neg hE, if_neg hI, if_pos hT, hto]
            simp only [hx1]
            refine ⟨applyDelta (applyDelta
              (applyDelta (applyDelta accs t.accountFromId (-t.amount)) toId t.amount)
              t.accountFromId t.amount) toId (-t.amount), ?_⟩
            rw [applyBalanceChange_eq_ok]
            refine ⟨?_, rfl⟩
            rw [accountExists_applyDelta, accountExists_applyDelta,
              accountExists_applyDelta]
            rw [accountExists_applyDelta] at hex2
            exact hex2
      · rw [updateRealAccountBalances, if_neg hE, if_neg hI, if_neg hT] at h
        exact Except.noConfusion h

/-! Helper lemmas about the engines, the transaction store and the
calendar. -/

theorem getBalance_applyDelta_missing (accs : List Account) (aid : Nat) (d : Money)
    (bid : Nat) (h : accountExists accs aid = false) :
    getBalance (applyDelta accs aid d) bid = getBalance accs bid := by
  rw [getBalance_applyDelta]
  by_cases hb : bid = aid
  · rw [if_pos hb, hb, getBalance_eq_none accs aid h]
    rfl
  · rw [if_neg hb]

theorem processTransaction_ok (s : LedgerState) (t : Transaction) (s1 : LedgerState)
    (h : processTransaction s t = Except.ok s1) :
    ∃ es accs1, t.Validate = Except.ok () ∧ generateJournalEntries t = Except.ok es ∧
      validateBalance es = Except.ok () ∧
      updateRealAccountBalances t s.accounts = Except.ok accs1 ∧
      s1 = { accounts := accs1, transactions := s.transactions ++ [t],
             entries := s.entries ++ es } := by
  cases hv : t.Validate with
  | error e =>
    simp only [processTransaction, hv] at h
    exact Except.noConfusion h
  | ok u =>
    cases u
    cases hg : generateJournalEntries t with
    | error e =>
      simp only [processTransaction, hv, hg] at h
      exact Except.noConfusion h
    | ok es =>
      cases hb : validateBalance es with
      | error e =>
        simp only [processTransaction, hv, hg, hb] at h
        exact Except.noConfusion h
      | ok u2 =>
        cases u2
        cases hu : updateRealAccountBalances t s.accounts with
        | error e =>
          simp only [processTransaction, hv, hg, hb, hu] at h
          exact Except.noConfusion h
        | ok accs1 =>
          simp only [processTransaction, hv, hg, hb, hu] at h
          injection h with h2
          exact ⟨es, accs1, rfl, rfl, hb, rfl, h2.symm⟩

theorem reverseTransaction_ok (s : LedgerState) (txId : Nat) (now : Int)
    (s2 : LedgerState) (h : reverseTransaction s txId now = Except.ok s2) :
    ∃ tx accs2, findTransaction s.transactions txId = some tx ∧
      reverseRealAccountBalances tx s.accounts = Except.ok accs2 ∧
      s2 = { accounts := accs2, transactions := setReconciled s.transactions txId,
             entries := s.entries ++
               reversingEntries txId now (entriesByTransaction s.entries txId) } := by
  cases hf : findTransaction s.transactions txId with
  | none =>
    simp only [reverseTransaction, hf] at h
    exact Except.noConfusion h
  | some tx =>
    cases hr : reverseRealAccountBalances tx s.accounts with
    | error e =>
      simp only [reverseTransaction, hf, hr] at h
      exact Except.noConfusion h
    | ok accs2 =>
      simp only [reverseTransaction, hf, hr] at h
      injection h with h2
      exact ⟨tx, accs2, rfl, hr, h2.symm⟩

theorem reverseTransaction_eq_ok (s : LedgerState) (txId : Nat) (now : Int)
    (tx : Transaction) (accs2 : List Account)
    (hf : findTransaction s.transactions txId = some tx)
    (hr : reverseRealAccountBalances tx s.accounts = Except.ok accs2) :
    reverseTransaction s txId now = Except.ok
      { accounts := accs2, transactions := setReconciled s.transactions txId,
        entries := s.entries ++
          reversingEntries txId now (entriesByTransaction s.entries txId) } := by
  simp only [reverseTransaction, hf, hr]

theorem findTransaction_append_none (l1 l2 : List Transaction) (txId : Nat)
    (h : findTransaction l1 txId = none) :
    findTransaction (l1 ++ l2) txId = findTransaction l2 txId := by
  induction l1 with
  | nil => rfl
  | cons a rest ih =>
    by_cases hp : a.id = txId
    · simp [findTransaction, List.find?_cons, hp] at h
    · simp only [findTransaction, List.cons_append, List.find?_cons, hp,
        decide_eq_true_eq, if_false, decide_False] at h ⊢
      exact ih h

theorem findTransaction_singleton (t : Transaction) :
    findTransaction [t] t.id = some t := by
  simp [findTransaction]

theorem findTransaction_map (db : List Transaction) (f : Transaction → Transaction)
    (hf : ∀ x, (f x).id = x.id) (j : Nat) :
    findTransaction (db.map f) j = (findTransaction db j).map f := by
  induction db with
  | nil => rfl
  | cons a rest ih =>
    by_cases h : a.id = j
    · simp [findTransaction, List.find?_cons, hf a, h]
    · simp only [findTransaction, List.map_cons, List.find?_cons, hf a, h] at ih ⊢
      simp only [h, decide_False, if_false]
      exact ih

theorem applyUpdates_frozen (t : Transaction) (req : UpdateTransactionRequest) :
    (applyUpdates t req).id = t.id ∧
    (applyUpdates t req).amount = t.amount ∧
    (applyUpdates t req).type = t.type ∧
    (applyUpdates t req).accountFromId = t.accountFromId ∧
    (applyUpdates t req).accountToId = t.accountToId ∧
    (applyUpdates t req).categoryId = t.categoryId ∧
    (applyUpdates t req).exchangeRate = t.exchangeRate ∧
    (applyUpdates t req).transactionDate = t.transactionDate := by
  unfold applyUpdates
  cases req.description <;> cases req.notes <;> cases req.isReconciled <;>
    simp

theorem monthStartSec_next (y m : Nat) (h1 : 1 ≤ m) (h2 : m ≤ 12) :
    monthStartSec (nextMonth y m).1 (nextMonth y m).2 =
      monthStartSec y m + 86400 * (daysInMonth y m : Int) := by
  interval_cases m <;>
    by_cases hl : isLeapYear y <;>
      simp [monthStartSec, nextMonth, daysBeforeMonth, daysInMonth,
        daysBeforeYear, hl] <;>
        omega

/-! Claim theorems. -/

/-- C2: every entry set the posting engine generates balances — the sum
of DEBIT amounts equals the sum of CREDIT amounts and validateBalance
accepts it — and reversal preserves the per-transaction equality: for any
balanced entry set with well-formed sides, the side-swapped compensating
set balances, and so does the combined set stored under the
transaction id. -/
theorem claim2_balance_invariant (t : Transaction) (es : List JournalEntry)
    (hgen : generateJournalEntries t = Except.ok es) :
    (totalDebits es = totalCredits es ∧ validateBalance es = Except.ok ()) ∧
    ∀ (txId : Nat) (now : Int) (l : List JournalEntry),
      (∀ e ∈ l, e.debitOrCredit = "DEBIT" ∨ e.debitOrCredit = "CREDIT") →
      totalDebits l = totalCredits l →
      totalDebits (reversingEntries txId now l) =
          totalCredits (reversingEntries txId now l) ∧
      totalDebits (l ++ reversingEntries txId now l) =
          totalCredits (l ++ reversingEntries txId now l) := by
  have hbal : totalDebits es = totalCredits es := by
    unfold generateJournalEntries at hgen
    repeat' split at hgen
    all_goals first
      | exact Except.noConfusion hgen
      | (injection hgen with h2
         subst h2
         simp [totalDebits, totalCredits])
  refine ⟨⟨hbal, ?_⟩, ?_⟩
  · rw [validateBalance, if_pos hbal]
  · intro txId now l hsides hl
    constructor
    · rw [totalDebits_reversingEntries txId now l hsides,
        totalCredits_reversingEntries txId now l]
      exact hl.symm
    · rw [totalDebits_append, totalCredits_append,
        totalDebits_reversingEntries txId now l hsides,
        totalCredits_reversingEntries txId now l, hl]

/-- Witness for C2 at the expense fixture. -/
theorem claim2_witness :
    generateJournalEntries exExpense = Except.ok exExpenseEntries ∧
    ((totalDebits exExpenseEntries = totalCredits exExpenseEntries ∧
      validateBalance exExpenseEntries = Except.ok ()) ∧
     ∀ (txId : Nat) (now : Int) (l : List JournalEntry),
       (∀ e ∈ l, e.debitOrCredit = "DEBIT" ∨ e.debitOrCredit = "CREDIT") →
       totalDebits l = totalCredits l →
       totalDebits (reversingEntries txId now l) =
           totalCredits (reversingEntries txId now l) ∧
       totalDebits (l ++ reversingEntries txId now l) =
           totalCredits (l ++ reversingEntries txId now l)) :=
  ⟨rfl, claim2_balance_invariant exExpense exExpenseEntries rfl⟩

/-- C3: a transaction passing pre-validation generates exactly two
journal entries determined by its kind — EXPENSE debits the category and
credits account_from, INCOME debits account_from and credits the
category, TRANSFER debits account_to and credits account_from — and each
entry's amount equals the transaction amount. -/
theorem claim3_entry_generation (t : Transaction) (hv : t.Validate = Except.ok ()) :
    (t.type = "EXPENSE" → ∃ cid, t.categoryId = some cid ∧
      generateJournalEntries t = Except.ok
        [{ userId := t.userId, transactionId := t.id, accountId := cid,
           debitOrCredit := "DEBIT", amount := t.amount,
           entryDate := t.transactionDate,
           description := "Expense: " ++ t.description },
         { userId := t.userId, transactionId := t.id, accountId := t.accountFromId,
           debitOrCredit := "CREDIT", amount := t.amount,
           entryDate := t.transactionDate,
           description := "Payment: " ++ t.description }]) ∧
    (t.type = "INCOME" → ∃ cid, t.categoryId = some cid ∧
      generateJournalEntries t = Except.ok
        [{ userId := t.userId, transactionId := t.id, accountId := t.accountFromId,
           debitOrCredit := "DEBIT", amount := t.amount,
           entryDate := t.transactionDate,
           description := "Income: " ++ t.description },
         { userId := t.userId, transactionId := t.id, accountId := cid,
           debitOrCredit := "CREDIT", amount := t.amount,
           entryDate := t.transactionDate,
           description := "Revenue: " ++ t.description }]) ∧
    (t.type = "TRANSFER" → ∃ toId, t.accountToId = some toId ∧
      generateJournalEntries t = Except.ok
        [{ userId := t.userId, transactionId := t.id, accountId := toId,
           debitOrCredit := "DEBIT", amount := t.amount,
           entryDate := t.transactionDate,
           description := "Transfer in: " ++ t.description },
         { userId := t.userId, transactionId := t.id, accountId := t.accountFromId,
           debitOrCredit := "CREDIT", amount := t.amount,
           entryDate := t.transactionDate,
           description := "Transfer out: " ++ t.description }]) := by
  obtain ⟨f1, f2, f3, f4, f5, f6, f7, f8, f9⟩ := (validate_ok_iff t).mp hv
  refine ⟨?_, ?_, ?_⟩
  · intro ht
    cases hc : t.categoryId with
    | none => exact absurd ⟨Or.inr ht, hc⟩ f5
    | some cid => exact ⟨cid, rfl, generate_expense t cid ht hc⟩
  · intro ht
    cases hc : t.categoryId with
    | none => exact absurd ⟨Or.inl ht, hc⟩ f5
    | some cid => exact ⟨cid, rfl, generate_income t cid ht hc⟩
  · intro ht
    cases hc : t.accountToId with
    | none => exact absurd ⟨ht, hc⟩ f3
    | some toId => exact ⟨toId, rfl, generate_transfer t toId ht hc⟩

/-- Witness for C3 at the expense fixture. -/
theorem claim3_witness :
    exExpense.Validate = Except.ok () ∧
    ((exExpense.type = "EXPENSE" → ∃ cid, exExpense.categoryId = some cid ∧
      generateJournalEntries exExpense = Except.ok
        [{ userId := exExpense.userId, transactionId := exExpense.id, accountId := cid,
           debitOrCredit := "DEBIT", amount := exExpense.amount,
           entryDate := exExpense.transactionDate,
           description := "Expense: " ++ exExpense.description },
         { userId := exExpense.userId, transactionId := exExpense.id,
           accountId := exExpense.accountFromId,
           debitOrCredit := "CREDIT", amount := exExpense.amount,
           entryDate := exExpense.transactionDate,
           description := "Payment: " ++ exExpense.description }]) ∧
     (exExpense.type = "INCOME" → ∃ cid, exExpense.categoryId = some cid ∧
      generateJournalEntries exExpense = Except.ok
        [{ userId := exExpense.userId, transactionId := exExpense.id,
           accountId := exExpense.accountFromId,
           debitOrCredit := "DEBIT", amount := exExpense.amount,
           entryDate := exExpense.transactionDate,
           description := "Income: " ++ exExpense.description },
         { userId := exExpense.userId, transactionId := exExpense.id, accountId := cid,
           debitOrCredit := "CREDIT", amount := exExpense.amount,
           entryDate := exExpense.transactionDate,
           description := "Revenue: " ++ exExpense.description }]) ∧
     (exExpense.type = "TRANSFER" → ∃ toId, exExpense.accountToId = some toId ∧
      generateJournalEntries exExpense = Except.ok
        [{ userId := exExpense.userId, transactionId := exExpense.id, accountId := toId,
           debitOrCredit := "DEBIT", amount := exExpense.amount,
           entryDate := exExpense.transactionDate,
           description := "Transfer in: " ++ exExpense.description },
         { userId := exExpense.userId, transactionId := exExpense.id,
           accountId := exExpense.accountFromId,
           debitOrCredit := "CREDIT", amount := exExpense.amount,
           entryDate := exExpense.transactionDate,
           description := "Transfer out: " ++ exExpense.description }])) :=
  ⟨rfl, claim3_entry_generation exExpense rfl⟩

/-- C8: any input violating a pre-validation rule — non-positive amount,
empty description, zero date, a TRANSFER carrying a category or lacking a
destination, an INCOME/EXPENSE carrying a destination or lacking a
category — makes Validate fail, so ProcessTransaction returns the
validation error before the database transaction even opens: the error
result carries no new ledger state, so nothing is persisted. -/
theorem claim8_prevalidation (t : Transaction) (h : violatesPreValidation t) :
    ∃ m, t.Validate = Except.error m ∧
      ∀ s : LedgerState,
        processTransaction s t =
          Except.error ("transaction validation failed: " ++ m) := by
  have hne : t.Validate ≠ Except.ok () := by
    intro hok
    obtain ⟨f1, f2, f3, f4, f5, f6, f7, f8, f9⟩ := (validate_ok_iff t).mp hok
    rcases h with ha | hd | hdt | ⟨ht, hx⟩ | ⟨ht, hx⟩
    · exact absurd ha.lt_or_eq.symm f1
    · exact f7 hd
    · exact f9 hdt
    · rcases hx with hc | hto
      · exact f4 ⟨ht, hc⟩
      · exact f3 ⟨ht, hto⟩
    · rcases hx with hto | hc
      · exact f6 ⟨ht, hto⟩
      · exact f5 ⟨ht, hc⟩
  cases hval : t.Validate with
  | ok u =>
    cases u
    exact absurd hval hne
  | error m =>
    exact ⟨m, rfl, fun s => by simp only [processTransaction, hval]⟩

/-- Witness for C8 at the zero-amount fixture. -/
theorem claim8_witness :
    violatesPreValidation exZeroAmount ∧
    ∃ m, exZeroAmount.Validate = Except.error m ∧
      ∀ s : LedgerState,
        processTransaction s exZeroAmount =
          Except.error ("transaction validation failed: " ++ m) :=
  ⟨Or.inl (by decide), claim8_prevalidation exZeroAmount (Or.inl (by decide))⟩

/-- C1 counterexample: after posting the expense fixture and reversing
it once, a second reverse call on the same id is not rejected: it
returns ok, appends another pair of compensating entries, and moves the
bank balance from 1000 to 1150, so it neither fails with AlreadyReversed
nor leaves the ledger unchanged. -/
theorem claim1_counterexample :
    processTransaction exState0 exExpense = Except.ok exStatePosted ∧
    reverseTransaction exStatePosted 5 1000 = Except.ok exStateReversedOnce ∧
    (findTransaction exStateReversedOnce.transactions 5).map
      Transaction.isReconciled = some true ∧
    reverseTransaction exStateReversedOnce 5 2000 = Except.ok exStateReversedTwice ∧
    getBalance exStateReversedOnce.accounts 1 = some 1000 ∧
    getBalance exStateReversedTwice.accounts 1 = some 1150 ∧
    exStateReversedTwice ≠ exStateReversedOnce :=
  ⟨rfl, rfl, rfl, rfl, rfl, rfl, by decide⟩

/-- C1 amended: ReverseTransaction has no AlreadyReversed guard.  The
transaction model has no reversed flag — reversal records itself by
setting IsReconciled — and the reversal path never inspects that flag:
whenever the transaction is found and the inverse balance deltas apply,
a reversal call succeeds even on an already-reversed transaction and
appends a further set of side-swapped compensating entries. -/
theorem claim1_amended (s : LedgerState) (txId : Nat) (now : Int) (tx : Transaction)
    (hfind : findTransaction s.transactions txId = some tx)
    (_hrec : tx.isReconciled = true)
    (hbal : ∃ accs2, reverseRealAccountBalances tx s.accounts = Except.ok accs2) :
    ∃ s2, reverseTransaction s txId now = Except.ok s2 ∧
      s2.entries = s.entries ++
        reversingEntries txId now (entriesByTransaction s.entries txId) := by
  obtain ⟨accs2, hr⟩ := hbal
  exact ⟨_, reverseTransaction_eq_ok s txId now tx accs2 hfind hr, rfl⟩

/-- Witness for the amended C1 at the once-reversed fixture ledger. -/
theorem claim1_witness :
    findTransaction exStateReversedOnce.transactions 5 = some exReconciledExpense ∧
    exReconciledExpense.isReconciled = true ∧
    (∃ accs2, reverseRealAccountBalances exReconciledExpense
      exStateReversedOnce.accounts = Except.ok accs2) ∧
    ∃ s2, reverseTransaction exStateReversedOnce 5 2000 = Except.ok s2 ∧
      s2.entries = exStateReversedOnce.entries ++
        reversingEntries 5 2000 (entriesByTransaction exStateReversedOnce.entries 5) :=
  ⟨rfl, rfl, ⟨_, rfl⟩,
    claim1_amended exStateReversedOnce 5 2000 exReconciledExpense rfl rfl ⟨_, rfl⟩⟩

/-- C4 counterexample: the entry-derived posting engine updates the
balance of an account of kind CATEGORY.  With a CATEGORY account row
whose id 7 equals the expense fixture's category id, the entry-derived
engine accepts the posting and moves that account's balance from 0 to
150 — so posting is not confined to the table's real-account deltas. -/
theorem claim4_counterexample :
    exCategoryAccount.accountType = "CATEGORY" ∧
    getBalance exStateWithCat.accounts 7 = some 0 ∧
    processTransactionEntryBased exStateWithCat exExpense =
      Except.ok exStateCatPosted ∧
    getBalance exStateCatPosted.accounts 7 = some 150 :=
  ⟨rfl, rfl, rfl, rfl⟩

/-- C4 amended: the transaction-derived engine is exactly the table.  A
successful posting changes every account balance by precisely the
postDelta the entry-generation table prescribes (zero for every account
other than account_from/account_to, so category ids are never touched on
this path), and a successful reversal by precisely its negation; the
entry-derived updateAccountBalances path, by contrast, also updates any
existing account row whose id equals an entry's category id, as the
counterexample shows. -/
theorem claim4_amended :
    (∀ (s : LedgerState) (t : Transaction) (s1 : LedgerState),
       processTransaction s t = Except.ok s1 →
       ∀ aid, getBalance s1.accounts aid =
         (getBalance s.accounts aid).map (fun b => b + postDelta t aid)) ∧
    (∀ (s : LedgerState) (txId : Nat) (now : Int) (tx : Transaction) (s2 : LedgerState),
       findTransaction s.transactions txId = some tx →
       reverseTransaction s txId now = Except.ok s2 →
       ∀ aid, getBalance s2.accounts aid =
         (getBalance s.accounts aid).map (fun b => b - postDelta tx aid)) := by
  constructor
  · intro s t s1 h aid
    obtain ⟨es, accs1, hv, hg, hb, hu, hs⟩ := processTransaction_ok s t s1 h
    rw [hs]
    exact updateReal_getBalance t s.accounts accs1 hu aid
  · intro s txId now tx s2 hfind h aid
    obtain ⟨tx2, accs2, hf2, hr, hs⟩ := reverseTransaction_ok s txId now s2 h
    rw [hfind] at hf2
    injection hf2 with he
    subst he
    rw [hs]
    exact reverseReal_getBalance tx s.accounts accs2 hr aid

/-- Witness for the amended C4: posting the expense fixture applies
exactly the table delta on every account id. -/
theorem claim4_witness :
    processTransaction exState0 exExpense = Except.ok exStatePosted ∧
    ∀ aid, getBalance exStatePosted.accounts aid =
      (getBalance exState0.accounts aid).map
        (fun b => b + postDelta exExpense aid) :=
  ⟨rfl, claim4_amended.1 exState0 exExpense exStatePosted rfl⟩

/-- C5: posting a transaction with a fresh id and then reversing it
leaves every account balance equal to its pre-post value: the reversal
always succeeds after a successful post, and the inverse deltas cancel
the posting deltas on every account, account_from and account_to
included. -/
theorem claim5_post_reverse_roundtrip (s : LedgerState) (t : Transaction)
    (s1 : LedgerState) (now : Int)
    (hfresh : findTransaction s.transactions t.id = none)
    (hpost : processTransaction s t = Except.ok s1) :
    ∃ s2, reverseTransaction s1 t.id now = Except.ok s2 ∧
      ∀ aid, getBalance s2.accounts aid = getBalance s.accounts aid := by
  obtain ⟨es, accs1, hv, hg, hb, hu, hs⟩ := processTransaction_ok s t s1 hpost
  have hfind : findTransaction s1.transactions t.id = some t := by
    rw [hs]
    show findTransaction (s.transactions ++ [t]) t.id = some t
    rw [findTransaction_append_none s.transactions [t] t.id hfresh]
    exact findTransaction_singleton t
  obtain ⟨accs2, hrev⟩ := reverseReal_ok_after t s.accounts accs1 hu
  refine ⟨_, reverseTransaction_eq_ok s1 t.id now t accs2 hfind ?_, ?_⟩
  · rw [hs]
    exact hrev
  · intro aid
    have h1 := updateReal_getBalance t s.accounts accs1 hu aid
    have h2 := reverseReal_getBalance t accs1 accs2 hrev aid
    show getBalance accs2 aid = getBalance s.accounts aid
    rw [h2, h1]
    cases getBalance s.accounts aid <;> simp

/-- Witness for C5 at the expense fixture. -/
theorem claim5_witness :
    findTransaction exState0.transactions exExpense.id = none ∧
    processTransaction exState0 exExpense = Except.ok exStatePosted ∧
    ∃ s2, reverseTransaction exStatePosted exExpense.id 1000 = Except.ok s2 ∧
      ∀ aid, getBalance s2.accounts aid = getBalance exState0.accounts aid :=
  ⟨rfl, rfl, claim5_post_reverse_roundtrip exState0 exExpense exStatePosted 1000 rfl rfl⟩

/-- C6 counterexample: with no expense data in any of the three months,
the runway numbers are zero and no division happens, but the detailed
calculation reports status CRITICAL with the critical warning message —
not HEALTHY with no warning, because 0 < 3 triggers the first status
branch. -/
theorem claim6_counterexample :
    (CalculateRunway 1000 0 [0, 0, 0]).runwayMonths = 0 ∧
    (CalculateRunway 1000 0 [0, 0, 0]).runwayDays = 0 ∧
    (CalculateRunway 1000 0 [0, 0, 0]).status = "CRITICAL" ∧
    (CalculateRunway 1000 0 [0, 0, 0]).status ≠ "HEALTHY" ∧
    (CalculateRunway 1000 0 [0, 0, 0]).message ≠
      "Your financial runway is healthy. Keep it up!" := by
  refine ⟨by decide, by decide, by decide, by decide, by decide⟩

/-- C6 amended: whenever none of the three months carries non-zero
expenses or their cumulative total is zero, the runway computation
returns runway_months = 0, runway_days = 0 and a zero average without
performing any division, and the detailed calculation classifies this
zero runway as CRITICAL with the critical warning message (0 < 3),
not HEALTHY. -/
theorem claim6_amended (liquidAssets liabilities : Money)
    (monthlyExpenses : List Money)
    (h : (monthlyExpenses.filter (fun e => e ≠ 0)).length = 0 ∨
      (monthlyExpenses.filter (fun e => e ≠ 0)).foldl (fun acc e => acc + e) 0 = 0) :
    calculateRunway liquidAssets liabilities monthlyExpenses = (0, 0, 0) ∧
    (CalculateRunway liquidAssets liabilities monthlyExpenses).runwayMonths = 0 ∧
    (CalculateRunway liquidAssets liabilities monthlyExpenses).runwayDays = 0 ∧
    (CalculateRunway liquidAssets liabilities monthlyExpenses).avgMonthlyExpenses = 0 ∧
    (CalculateRunway liquidAssets liabilities monthlyExpenses).status = "CRITICAL" ∧
    (CalculateRunway liquidAssets liabilities monthlyExpenses).message =
      "⚠️ CRITICAL: Your runway is less than 3 months. Consider increasing income or reducing expenses immediately." := by
  have hr : calculateRunway liquidAssets liabilities monthlyExpenses = (0, 0, 0) := by
    simp only [calculateRunway]
    split
    · rfl
    · rename_i hcond
      exact absurd h hcond
  refine ⟨hr, ?_, ?_, ?_, ?_, ?_⟩ <;>
    norm_num [CalculateRunway, hr]

/-- Witness for the amended C6 with three empty months. -/
theorem claim6_witness :
    (([0, 0, 0] : List Money).filter (fun e => e ≠ 0)).length = 0 ∧
    (calculateRunway 1000 0 [0, 0, 0] = (0, 0, 0) ∧
     (CalculateRunway 1000 0 [0, 0, 0]).runwayMonths = 0 ∧
     (CalculateRunway 1000 0 [0, 0, 0]).runwayDays = 0 ∧
     (CalculateRunway 1000 0 [0, 0, 0]).avgMonthlyExpenses = 0 ∧
     (CalculateRunway 1000 0 [0, 0, 0]).status = "CRITICAL" ∧
     (CalculateRunway 1000 0 [0, 0, 0]).message =
       "⚠️ CRITICAL: Your runway is less than 3 months. Consider increasing income or reducing expenses immediately.") :=
  ⟨by decide, claim6_amended 1000 0 [0, 0, 0] (Or.inl (by decide))⟩

/-- C7 counterexample: a reversed (reconciled) expense transaction inside
the month window is still counted by GetMonthlyStats — the code has no
non-reversed condition — while the specification's sum over non-reversed
rows would exclude it. -/
theorem claim7_counterexample :
    exReconciledExpense.isReconciled = true ∧
    GetMonthlyStats [exReconciledExpense] 1 1 0 = (0, 150, 1) ∧
    monthlyExpensesSpec [exReconciledExpense] 1 1 0 = 0 ∧
    (GetMonthlyStats [exReconciledExpense] 1 1 0).2.1 ≠
      monthlyExpensesSpec [exReconciledExpense] 1 1 0 :=
  ⟨rfl, rfl, rfl, by decide⟩

/-- C7 amended: monthly_stats sums amounts of the owner's INCOME and
EXPENSE transactions whose date lies in [first instant of the month,
last day 23:59:59 UTC] — the code's endDate, one second before the next
month opens, equals monthStart + daysInMonth·86400 − 1 — and counts all
the owner's rows in that window regardless of kind; but the sums range
over all matching rows, reversed (reconciled) ones included, since no
reversed filter exists. -/
theorem claim7_amended (db : List Transaction) (userID : Nat) (month year : Nat)
    (h1 : 1 ≤ month) (h2 : month ≤ 12) :
    GetMonthlyStats db userID month year =
      (sumAmounts (db.filter (fun t =>
         inMonthWindow userID (monthStartSec year month)
           (monthStartSec year month + 86400 * (daysInMonth year month : Int) - 1) t &&
         t.type == "INCOME")),
       sumAmounts (db.filter (fun t =>
         inMonthWindow userID (monthStartSec year month)
           (monthStartSec year month + 86400 * (daysInMonth year month : Int) - 1) t &&
         t.type == "EXPENSE")),
       (db.filter (fun t =>
         inMonthWindow userID (monthStartSec year month)
           (monthStartSec year month + 86400 * (daysInMonth year month : Int) - 1) t)).length) := by
  simp only [GetMonthlyStats]
  rw [monthStartSec_next year month h1 h2]

/-- Witness for the amended C7 at the reconciled-expense fixture. -/
theorem claim7_witness :
    (1 ≤ 1 ∧ 1 ≤ 12) ∧
    GetMonthlyStats [exReconciledExpense] 1 1 0 =
      (sumAmounts (([exReconciledExpense]).filter (fun t =>
         inMonthWindow 1 (monthStartSec 0 1)
           (monthStartSec 0 1 + 86400 * (daysInMonth 0 1 : Int) - 1) t &&
         t.type == "INCOME")),
       sumAmounts (([exReconciledExpense]).filter (fun t =>
         inMonthWindow 1 (monthStartSec 0 1)
           (monthStartSec 0 1 + 86400 * (daysInMonth 0 1 : Int) - 1) t &&
         t.type == "EXPENSE")),
       (([exReconciledExpense]).filter (fun t =>
         inMonthWindow 1 (monthStartSec 0 1)
           (monthStartSec 0 1 + 86400 * (daysInMonth 0 1 : Int) - 1) t)).length) :=
  ⟨⟨by decide, by decide⟩, claim7_amended [exReconciledExpense] 1 1 0 (by decide) (by decide)⟩

/-- C9 counterexample: an update request carrying a new amount and a new
date is not refused — there is no ImmutableField error — the operation
succeeds and the stored transaction is returned unchanged: the amount
and date fields of the request are silently ignored. -/
theorem claim9_counterexample :
    exUpdateReq.amount = some 999 ∧
    exUpdateReq.transactionDate = some 77 ∧
    exExpense.amount = 150 ∧
    exExpense.transactionDate = 100 ∧
    transactionServiceUpdate [exExpense] 5 exUpdateReq = Except.ok [exExpense] :=
  ⟨rfl, rfl, rfl, rfl, rfl⟩

/-- C9 amended: whenever the coordinator's update succeeds, the stored
row at the updated id is the found transaction with only description,
notes and the reconciled flag applied — its amount, kind, accounts,
category, exchange rate and even its date are unchanged (the request's
amount and date fields are never read) — and every other id's row is
untouched; attempts to change frozen fields are silently ignored, never
refused with ImmutableField. -/
theorem claim9_amended (db : List Transaction) (id : Nat)
    (req : UpdateTransactionRequest) (db2 : List Transaction)
    (h : transactionServiceUpdate db id req = Except.ok db2) :
    ∀ t, findTransaction db id = some t →
      findTransaction db2 id = some (applyUpdates t req) ∧
      (applyUpdates t req).amount = t.amount ∧
      (applyUpdates t req).type = t.type ∧
      (applyUpdates t req).accountFromId = t.accountFromId ∧
      (applyUpdates t req).accountToId = t.accountToId ∧
      (applyUpdates t req).categoryId = t.categoryId ∧
      (applyUpdates t req).exchangeRate = t.exchangeRate ∧
      (applyUpdates t req).transactionDate = t.transactionDate ∧
      ∀ j, j ≠ id → findTransaction db2 j = findTransaction db j := by
  intro t hfind
  obtain ⟨hid, ham, hty, hfr, hto, hca, hex, hdt⟩ := applyUpdates_frozen t req
  have htid : t.id = id := by simpa using List.find?_some hfind
  simp only [transactionServiceUpdate, hfind] at h
  cases hv : (applyUpdates t req).Validate with
  | error e =>
    rw [repositoryUpdate, hv] at h
    exact Except.noConfusion h
  | ok u =>
    cases u
    rw [repositoryUpdate, hv] at h
    injection h with h2
    have hpid : ∀ x : Transaction,
        ((fun row => if row.id = (applyUpdates t req).id then applyUpdates t req
          else row) x).id = x.id := by
      intro x
      by_cases hx : x.id = (applyUpdates t req).id
      · simp [hx]
      · simp [hx]
    subst h2
    refine ⟨?_, ham, hty, hfr, hto, hca, hex, hdt, ?_⟩
    · rw [findTransaction_map db _ hpid id, hfind]
      simp [hid, htid]
    · intro j hj
      rw [findTransaction_map db _ hpid j]
      cases hfj : findTransaction db j with
      | none => rfl
      | some u =>
        have hujd : u.id = j := by simpa using List.find?_some hfj
        have hne : ¬ (u.id = (applyUpdates t req).id) := by
          rw [hujd, hid, htid]
          exact hj
        simp [hne]

/-- Witness for the amended C9 at the expense fixture and the
amount-changing request. -/
theorem claim9_witness :
    transactionServiceUpdate [exExpense] 5 exUpdateReq = Except.ok [exExpense] ∧
    findTransaction [exExpense] 5 = some exExpense ∧
    (findTransaction [exExpense] 5 = some (applyUpdates exExpense exUpdateReq) ∧
     (applyUpdates exExpense exUpdateReq).amount = exExpense.amount ∧
     (applyUpdates exExpense exUpdateReq).type = exExpense.type ∧
     (applyUpdates exExpense exUpdateReq).accountFromId = exExpense.accountFromId ∧
     (applyUpdates exExpense exUpdateReq).accountToId = exExpense.accountToId ∧
     (applyUpdates exExpense exUpdateReq).categoryId = exExpense.categoryId ∧
     (applyUpdates exExpense exUpdateReq).exchangeRate = exExpense.exchangeRate ∧
     (applyUpdates exExpense exUpdateReq).transactionDate = exExpense.transactionDate ∧
     ∀ j, j ≠ 5 → findTransaction [exExpense] j = findTransaction [exExpense] j) :=
  ⟨rfl, rfl, claim9_amended [exExpense] 5 exUpdateReq [exExpense] rfl exExpense rfl⟩

/-- C10 counterexample: a TRANSFER whose source account row is missing
but whose destination row exists: the entry-derived updater credits the
existing destination account (0 to 100) while the transaction-derived
updater fails with a not-found error and changes nothing, so the two do
not agree unconditionally on TRANSFER. -/
theorem claim10_counterexample :
    generateJournalEntries exTransfer = Except.ok exTransferEntries ∧
    getBalance [exBank2] 2 = some 0 ∧
    getBalance (updateAccountBalances exTransferEntries [exBank2]) 2 = some 100 ∧
    updateRealAccountBalances exTransfer [exBank2] =
      Except.error ("account 1 not found") :=
  ⟨rfl, rfl, rfl, rfl⟩

/-- C10 amended: the two balance updaters agree on every account
provided every referenced real account exists (account_from, and
account_to for TRANSFER) and, for INCOME/EXPENSE, the category id is not
the id of any existing account row; this includes TRANSFER with
account_to = account_from, where the single merged delta nets to
zero. -/
theorem claim10_amended (t : Transaction) (es : List JournalEntry)
    (accs : List Account)
    (hgen : generateJournalEntries t = Except.ok es)
    (hfrom : accountExists accs t.accountFromId = true)
    (hto : ∀ toId, t.accountToId = some toId → accountExists accs toId = true)
    (hcat : (t.type = "EXPENSE" ∨ t.type = "INCOME") →
      ∀ cid, t.categoryId = some cid → accountExists accs cid = false) :
    ∃ accs2, updateRealAccountBalances t accs = Except.ok accs2 ∧
      ∀ aid, getBalance accs2 aid = getBalance (updateAccountBalances es accs) aid := by
  by_cases hE : t.type = "EXPENSE"
  · rw [generateJournalEntries, if_pos hE] at hgen
    cases hc : t.categoryId with
    | none =>
      rw [hc] at hgen
      exact Except.noConfusion hgen
    | some cid =>
      rw [hc] at hgen
      injection hgen with hes
      subst hes
      have hcatf : accountExists accs cid = false := hcat (Or.inl hE) cid hc
      have hne : ¬ (cid = t.accountFromId) := by
        intro heq
        rw [heq] at hcatf
        rw [hcatf] at hfrom
        exact Bool.noConfusion hfrom
      refine ⟨applyDelta accs t.accountFromId (-t.amount), ?_, ?_⟩
      · rw [updateRealAccountBalances, if_pos hE, applyBalanceChange_eq_ok]
        exact ⟨hfrom, rfl⟩
      · intro aid
        have hacc : updateAccountBalances
            [{ userId := t.userId, transactionId := t.id, accountId := cid,
               debitOrCredit := "DEBIT", amount := t.amount,
               entryDate := t.transactionDate,
               description := "Expense: " ++ t.description },
             { userId := t.userId, transactionId := t.id,
               accountId := t.accountFromId,
               debitOrCredit := "CREDIT", amount := t.amount,
               entryDate := t.transactionDate,
               description := "Payment: " ++ t.description }] accs =
            applyDelta (applyDelta accs cid t.amount) t.accountFromId (-t.amount) := by
          simp [updateAccountBalances, accumulateDeltas, addDelta,
            entrySignedAmount, hne]
        rw [hacc, getBalance_applyDelta, getBalance_applyDelta,
          getBalance_applyDelta_missing accs cid t.amount aid hcatf]
  · by_cases hI : t.type = "INCOME"
    · rw [generateJournalEntries, if_neg hE, if_pos hI] at hgen
      cases hc : t.categoryId with
      | none =>
        rw [hc] at hgen
        exact Except.noConfusion hgen
      | some cid =>
        rw [hc] at hgen
        injection hgen with hes
        subst hes
        have hcatf : accountExists accs cid = false := hcat (Or.inr hI) cid hc
        have hne : ¬ (t.accountFromId = cid) := by
          intro heq
          rw [← heq] at hcatf
          rw [hcatf] at hfrom
          exact Bool.noConfusion hfrom
        refine ⟨applyDelta accs t.accountFromId t.amount, ?_, ?_⟩
        · rw [updateRealAccountBalances, if_neg hE, if_pos hI,
            applyBalanceChange_eq_ok]
          exact ⟨hfrom, rfl⟩
        · intro aid
          have hacc : updateAccountBalances
              [{ userId := t.userId, transactionId := t.id,
                 accountId := t.accountFromId,
                 debitOrCredit := "DEBIT", amount := t.amount,
                 entryDate := t.transactionDate,
                 description := "Income: " ++ t.description },
               { userId := t.userId, transactionId := t.id, accountId := cid,
                 debitOrCredit := "CREDIT", amount := t.amount,
                 entryDate := t.transactionDate,
                 description := "Revenue: " ++ t.description }] accs =
              applyDelta (applyDelta accs t.accountFromId t.amount) cid (-t.amount) := by
            simp [updateAccountBalances, accumulateDeltas, addDelta,
              entrySignedAmount, hne]
          have hmiss : accountExists (applyDelta accs t.accountFromId t.amount) cid =
              false := by
            rw [accountExists_applyDelta]
            exact hcatf
          rw [hacc, getBalance_applyDelta_missing
            (applyDelta accs t.accountFromId t.amount) cid (-t.amount) aid hmiss]
    · by_cases hT : t.type = "TRANSFER"
      · rw [generateJournalEntries, if_neg hE, if_neg hI, if_pos hT] at hgen
        cases hcto : t.accountToId with
        | none =>
          rw [hcto] at hgen
          exact Except.noConfusion hgen
        | some toId =>
          rw [hcto] at hgen
          injection hgen with hes
          subst hes
          have hexto : accountExists accs toId = true := hto toId hcto
          have hab1 : applyBalanceChange accs t.accountFromId (-t.amount) =
              Except.ok (applyDelta accs t.accountFromId (-t.amount)) := by
            rw [applyBalanceChange_eq_ok]
            exact ⟨hfrom, rfl⟩
          refine ⟨applyDelta (applyDelta accs t.accountFromId (-t.amount))
            toId t.amount, ?_, ?_⟩
          · rw [updateRealAccountBalances, if_neg hE, if_neg hI, if_pos hT, hcto]
            simp only [hab1]
            rw [applyBalanceChange_eq_ok]
            refine ⟨?_, rfl⟩
            rw [accountExists_applyDelta]
            exact hexto
          · intro aid
            by_cases hef : toId = t.accountFromId
            · have hacc : updateAccountBalances
                  [{ userId := t.userId, transactionId := t.id, accountId := toId,
                     debitOrCredit := "DEBIT", amount := t.amount,
                     entryDate := t.transactionDate,
                     description := "Transfer in: " ++ t.description },
                   { userId := t.userId, transactionId := t.id,
                     accountId := t.accountFromId,
                     debitOrCredit := "CREDIT", amount := t.amount,
                     entryDate := t.transactionDate,
                     description := "Transfer out: " ++ t.description }] accs =
                  applyDelta accs toId (t.amount + -t.amount) := by
                simp [updateAccountBalances, accumulateDeltas, addDelta,
                  entrySignedAmount, hef]
              rw [hacc,
                getBalance_applyDelta2 accs t.accountFromId toId (-t.amount)
                  t.amount aid 0 (by rw [hef]; split_ifs <;> ring),
                getBalance_applyDelta1 accs toId (t.amount + -t.amount) aid 0
                  (by split_ifs <;> ring)]
            · have hacc : updateAccountBalances
                  [{ userId := t.userId, transactionId := t.id, accountId := toId,
                     debitOrCredit := "DEBIT", amount := t.amount,
                     entryDate := t.transactionDate,
                     description := "Transfer in: " ++ t.description },
                   { userId := t.userId, transactionId := t.id,
                     accountId := t.accountFromId,
                     debitOrCredit := "CREDIT", amount := t.amount,
                     entryDate := t.transactionDate,
                     description := "Transfer out: " ++ t.description }] accs =
                  applyDelta (applyDelta accs toId t.amount)
                    t.accountFromId (-t.amount) := by
                simp [updateAccountBalances, accumulateDeltas, addDelta,
                  entrySignedAmount, hef]
              rw [hacc,
                getBalance_applyDelta2 accs t.accountFromId toId (-t.amount)
                  t.amount aid
                  ((if aid = t.accountFromId then -t.amount else 0) +
                    (if aid = toId then t.amount else 0)) rfl,
                getBalance_applyDelta2 accs toId t.accountFromId t.amount
                  (-t.amount) aid
                  ((if aid = t.accountFromId then -t.amount else 0) +
                    (if aid = toId then t.amount else 0)) (by ring)]
      · rw [generateJournalEntries, if_neg hE, if_neg hI, if_neg hT] at hgen
        exact Except.noConfusion hgen

/-- Witness for the amended C10 at the transfer fixture over a ledger
holding both referenced accounts. -/
theorem claim10_witness :
    generateJournalEntries exTransfer = Except.ok exTransferEntries ∧
    accountExists [exBank, exBank2] exTransfer.accountFromId = true ∧
    ∃ accs2, updateRealAccountBalances exTransfer [exBank, exBank2] =
        Except.ok accs2 ∧
      ∀ aid, getBalance accs2 aid =
        getBalance (updateAccountBalances exTransferEntries [exBank, exBank2]) aid :=
  ⟨rfl, rfl,
    claim10_amended exTransfer exTransferEntries [exBank, exBank2] rfl rfl
      (fun toId h => by
        injection h with h2
        subst h2
        decide)
      (fun hor => absurd hor (by decide))⟩

end Arabella
